import Mathlib

/-!
# Verification of the 3D scene editor's core logic

Shallow embedding of the editor's core modules — numeric validation
utilities (`utils.js`, `constants.js`), the transform mutator
(`transform.js`), the history manager (`history.js`), the placement
spiral search (`utils.js`), the selection manager (`selection.js`) and
the persistence codec (`persistence.js`) — together with theorems about
the behaviour each module exhibits.

Modelling conventions:
* JavaScript numbers are modelled as exact rationals (`ℚ`).  `Math.PI`
  is modelled by the exact rational value of the IEEE-754 double that
  JavaScript uses for it, so the degree/radian conversions compute
  exactly in the model.
* A raw numeric UI input is modelled by whether `Number.parseFloat`
  yields a finite number (`RawInput.num q`) or not
  (`RawInput.malformed`, covering `NaN`/`Infinity` results).
* JSON values are modelled by the inductive `Jso`, including
  `undefined` (the result of a missing property lookup), `NaN` and
  `±Infinity` so that truthiness and `Number.isFinite` are faithful.
* Rendering-only side effects (materials, shadow flags, `lookAt`
  orientation, notifications, render requests) are not part of the
  state; the state tracks the object registry, the selection handle and
  the camera parameters that the code reads and writes.
-/

namespace Editor3D

/-! ## Numeric model -/

/-- A 3-component vector of (exact) JavaScript numbers, standing for
`THREE.Vector3` / `THREE.Euler` component data. -/
structure Vec3 where
  x : ℚ
  y : ℚ
  z : ℚ
deriving Repr, DecidableEq

/-- The axis name `'x' | 'y' | 'z'` passed to the transform mutators. -/
inductive Axis where
  | x
  | y
  | z
deriving Repr, DecidableEq

/-- Component read `vector[axis]`. -/
def Vec3.get (v : Vec3) : Axis → ℚ
  | .x => v.x
  | .y => v.y
  | .z => v.z

/-- Component write `vector[axis] = q`. -/
def Vec3.set (v : Vec3) : Axis → ℚ → Vec3
  | .x, q => { v with x := q }
  | .y, q => { v with y := q }
  | .z, q => { v with z := q }

/-- `Math.max(lo, Math.min(hi, v))`, the clamp idiom used throughout the
source. -/
def clampQ (lo hi v : ℚ) : ℚ :=
  max lo (min hi v)

/-- Truncation toward zero, the rounding JavaScript's `%` applies to the
quotient. -/
def jsTrunc (q : ℚ) : ℤ :=
  if 0 ≤ q then ⌊q⌋ else ⌈q⌉

/-- JavaScript's remainder `a % n` on numbers: `a - n * trunc (a / n)`
(the result carries the sign of the dividend). -/
def jsMod (a n : ℚ) : ℚ :=
  a - n * jsTrunc (a / n)

/-- The exact rational value of the IEEE-754 double `Math.PI`. -/
def mathPi : ℚ :=
  884279719003555 / 281474976710656

/-- Raw input to `safeParseNumber` as seen through `Number.parseFloat`:
either it parses to a finite number or it does not (`NaN`/`Infinity`).
-/
inductive RawInput where
  | num (q : ℚ)
  | malformed
deriving Repr, DecidableEq

/-- `safeParseNumber(value, fallback)` from `utils.js`: the parsed value
when finite, otherwise the fallback.  Never throws. -/
def safeParseNumber (value : RawInput) (fallback : ℚ) : ℚ :=
  match value with
  | .num q => q
  | .malformed => fallback

/-! ## Constants (`constants.js`) -/

/-- `WORKSPACE_BOUNDS` from `constants.js`. -/
structure BoundsBox where
  minX : ℚ
  maxX : ℚ
  minY : ℚ
  maxY : ℚ
  minZ : ℚ
  maxZ : ℚ
deriving Repr, DecidableEq

def WORKSPACE_BOUNDS : BoundsBox :=
  { minX := -10, maxX := 10, minY := 0, maxY := 20, minZ := -10, maxZ := 10 }

/-- `{min, max}` limit pairs from `constants.js`. -/
structure LimitPair where
  min : ℚ
  max : ℚ
deriving Repr, DecidableEq

def SCALE_LIMITS : LimitPair := { min := 1/10, max := 10 }

def ROTATION_LIMITS : LimitPair := { min := 0, max := 360 }

/-! ## Validation utilities (`utils.js`) -/

/-- `validatePosition` from `utils.js`: membership of every component in
the workspace bounds. -/
def validatePosition (position : Vec3) : Bool :=
  decide (WORKSPACE_BOUNDS.minX ≤ position.x ∧ position.x ≤ WORKSPACE_BOUNDS.maxX ∧
    WORKSPACE_BOUNDS.minY ≤ position.y ∧ position.y ≤ WORKSPACE_BOUNDS.maxY ∧
    WORKSPACE_BOUNDS.minZ ≤ position.z ∧ position.z ≤ WORKSPACE_BOUNDS.maxZ)

/-- `clampPosition` from `utils.js`: axis-wise clamp to the workspace
bounds. -/
def clampPosition (position : Vec3) : Vec3 :=
  { x := clampQ WORKSPACE_BOUNDS.minX WORKSPACE_BOUNDS.maxX position.x
    y := clampQ WORKSPACE_BOUNDS.minY WORKSPACE_BOUNDS.maxY position.y
    z := clampQ WORKSPACE_BOUNDS.minZ WORKSPACE_BOUNDS.maxZ position.z }

/-- `validateRotation` from `utils.js`: each axis, converted to degrees,
lies within `ROTATION_LIMITS`. -/
def validateRotation (rotation : Vec3) : Bool :=
  let degX := rotation.x * 180 / mathPi
  let degY := rotation.y * 180 / mathPi
  let degZ := rotation.z * 180 / mathPi
  decide (ROTATION_LIMITS.min ≤ degX ∧ degX ≤ ROTATION_LIMITS.max ∧
    ROTATION_LIMITS.min ≤ degY ∧ degY ≤ ROTATION_LIMITS.max ∧
    ROTATION_LIMITS.min ≤ degZ ∧ degZ ≤ ROTATION_LIMITS.max)

/-- The per-axis normalisation inside `clampRotation`: wrap the degree
value into `[0, 360)` and convert back to radians. -/
def clampDeg (deg : ℚ) : ℚ :=
  let d := jsMod deg 360
  let d := if d < 0 then d + 360 else d
  d * mathPi / 180

/-- `clampRotation` from `utils.js`. -/
def clampRotation (rotation : Vec3) : Vec3 :=
  { x := clampDeg (rotation.x * 180 / mathPi)
    y := clampDeg (rotation.y * 180 / mathPi)
    z := clampDeg (rotation.z * 180 / mathPi) }

/-- `validateScale` from `utils.js`. -/
def validateScale (scale : Vec3) : Bool :=
  decide (SCALE_LIMITS.min ≤ scale.x ∧ scale.x ≤ SCALE_LIMITS.max ∧
    SCALE_LIMITS.min ≤ scale.y ∧ scale.y ≤ SCALE_LIMITS.max ∧
    SCALE_LIMITS.min ≤ scale.z ∧ scale.z ≤ SCALE_LIMITS.max)

/-- `clampScale` from `utils.js`. -/
def clampScale (scale : Vec3) : Vec3 :=
  { x := clampQ SCALE_LIMITS.min SCALE_LIMITS.max scale.x
    y := clampQ SCALE_LIMITS.min SCALE_LIMITS.max scale.y
    z := clampQ SCALE_LIMITS.min SCALE_LIMITS.max scale.z }

/-! ## Transform mutator (`transform.js`)

The mutated `THREE.Object3D` is modelled by its position, rotation
(Euler angles in radians) and scale.  A nullable object reference is an
`Option Obj3D`; the mutators return the (possibly) updated object, and
`none` stands for "no object, nothing mutated". -/

/-- The transform-relevant state of one scene object. -/
structure Obj3D where
  position : Vec3
  rotation : Vec3
  scale : Vec3
deriving Repr, DecidableEq

/-- `updateObjectPosition(object, axis, value)` from `transform.js`.
(`object.position[axis] ?? 0`: a `THREE.Vector3` component is always
present, so the fallback is the current component.) -/
def updateObjectPosition (object : Option Obj3D) (axis : Axis) (value : RawInput) :
    Option Obj3D :=
  match object with
  | none => none
  | some o =>
    let parsed := safeParseNumber value (o.position.get axis)
    let p := o.position.set axis parsed
    let p := if validatePosition p then p else clampPosition p
    some { o with position := p }

/-- `updateObjectRotationDeg(object, axis, degValue)` from
`transform.js`. -/
def updateObjectRotationDeg (object : Option Obj3D) (axis : Axis) (degValue : RawInput) :
    Option Obj3D :=
  match object with
  | none => none
  | some o =>
    let parsed := safeParseNumber degValue (o.rotation.get axis * 180 / mathPi)
    let parsed := jsMod parsed 360
    let parsed := if parsed < 0 then parsed + 360 else parsed
    let parsed := clampQ ROTATION_LIMITS.min ROTATION_LIMITS.max parsed
    let radians := parsed * mathPi / 180
    let r := o.rotation.set axis radians
    let r := if validateRotation r then r else clampRotation r
    some { o with rotation := r }

/-- `updateObjectScale(object, axis, value)` from `transform.js`.
(`object.scale[axis] ?? 1`: a `THREE.Vector3` component is always
present, so the fallback is the current component.) -/
def updateObjectScale (object : Option Obj3D) (axis : Axis) (value : RawInput) :
    Option Obj3D :=
  match object with
  | none => none
  | some o =>
    let parsed := safeParseNumber value (o.scale.get axis)
    let parsed := clampQ SCALE_LIMITS.min SCALE_LIMITS.max parsed
    let s := o.scale.set axis parsed
    let s := if validateScale s then s else clampScale s
    some { o with scale := s }

/-! ## History manager (`history.js`, `createHistory`)

`createHistory({serialize, load, requestRender, limit = 50})` is generic
in the snapshot data: `serialize()` produces the current scene snapshot
and `load` installs one.  The embedding therefore keeps the snapshot
type abstract (`α`) and tracks the current snapshot explicitly;
`structuredClone` is the identity on immutable model values.  The JS
arrays `undoStack`/`redoStack` are lists whose *last* element is the
top of the stack (`push`/`pop` act at the end, `shift` evicts at the
front). -/

/-- The state owned by one `createHistory` instance, together with the
current scene snapshot that `serialize`/`load` read and write. -/
structure HistoryState (α : Type) where
  undoStack : List α
  redoStack : List α
  current : α
deriving Repr, DecidableEq

/-- The bounded `push` helper inside `createHistory`:
`stack.push(structuredClone(data)); if (stack.length > limit) stack.shift()`. -/
def stackPush (limit : ℕ) (stack : List α) (data : α) : List α :=
  let s := stack ++ [data]
  if limit < s.length then s.tail else s

/-- `record()`: push a snapshot of the current state onto the undo
stack and clear the redo stack. -/
def record (limit : ℕ) (st : HistoryState α) : HistoryState α :=
  { undoStack := stackPush limit st.undoStack st.current
    redoStack := []
    current := st.current }

/-- `undo()`: no-op when the undo stack is empty; otherwise push the
current snapshot onto the redo stack, pop the most recent undo entry
and load it. -/
def undo (limit : ℕ) (st : HistoryState α) : HistoryState α :=
  match st.undoStack.getLast? with
  | none => st
  | some previous =>
    { undoStack := st.undoStack.dropLast
      redoStack := stackPush limit st.redoStack st.current
      current := previous }

/-- `redo()`: symmetric to `undo()`. -/
def redo (limit : ℕ) (st : HistoryState α) : HistoryState α :=
  match st.redoStack.getLast? with
  | none => st
  | some next =>
    { undoStack := stackPush limit st.undoStack st.current
      redoStack := st.redoStack.dropLast
      current := next }

/-- `canUndo()`. -/
def canUndo (st : HistoryState α) : Bool :=
  decide (0 < st.undoStack.length)

/-- `canRedo()`. -/
def canRedo (st : HistoryState α) : Bool :=
  decide (0 < st.redoStack.length)

/-- Scenario step for the history-bound property: one `record()` call
followed by an edit that leaves the scene in the snapshot `next`
(`record` captures the state *before* the edit). -/
def recordThen (limit : ℕ) (st : HistoryState α) (next : α) : HistoryState α :=
  { record limit st with current := next }

/-- The scenario run: starting from a fresh history whose current scene
snapshot is `f 0`, perform `n` record-then-edit steps, the `k`-th edit
leaving the scene at snapshot `f k`. -/
def recordRun (limit : ℕ) (f : ℕ → α) : ℕ → HistoryState α
  | 0 => { undoStack := [], redoStack := [], current := f 0 }
  | n + 1 => recordThen limit (recordRun limit f n) (f (n + 1))

/-! ## Placement spiral search (`utils.js`, `findNonOverlappingPosition`)

`checkObjectOverlap` delegates to the graphics runtime
(`THREE.Box3().setFromObject`); it is modelled by an abstract predicate
`overlap : Vec3 → β → Bool` saying whether the temporary clone of the
placed object, moved to a candidate position, intersects one existing
object's bounding volume.  The trigonometric values `Math.cos/sin` of
the quarter-turn angles `(attempts * 0.5) * Math.PI` are taken exactly
(`1, 0, -1, 0` cyclically). -/

/-- `Math.cos((k * 0.5) * Math.PI)` at exact quarter turns. -/
def cosQuarter (k : ℕ) : ℚ :=
  match k % 4 with
  | 0 => 1
  | 1 => 0
  | 2 => -1
  | _ => 0

/-- `Math.sin((k * 0.5) * Math.PI)` at exact quarter turns. -/
def sinQuarter (k : ℕ) : ℚ :=
  match k % 4 with
  | 0 => 0
  | 1 => 1
  | 2 => 0
  | _ => -1

/-- The shifted test position computed at counter value `attempts`:
offset X/Z from the original target on the spiral
(`angle = attempts·0.5·π`, `radius = ⌊attempts/4⌋ + 1`), keep Y, and
clamp X/Z into the workspace bounds. -/
def spiralCandidate (targetPos : Vec3) (gridSize : ℚ) (attempts : ℕ) : Vec3 :=
  let radius : ℚ := (attempts / 4 + 1 : ℕ)
  let x := targetPos.x + cosQuarter attempts * radius * gridSize
  let z := targetPos.z + sinQuarter attempts * radius * gridSize
  { x := clampQ WORKSPACE_BOUNDS.minX WORKSPACE_BOUNDS.maxX x
    y := targetPos.y
    z := clampQ WORKSPACE_BOUNDS.minZ WORKSPACE_BOUNDS.maxZ z }

/-- The inner `for (const existing of existingObjects)` loop: does the
temporary clone at `testPos` overlap any existing object? -/
def hasOverlapAt (overlap : Vec3 → β → Bool) (existingObjects : List β) (testPos : Vec3) :
    Bool :=
  existingObjects.any (overlap testPos)

/-- The `while (attempts < maxAttempts)` loop of
`findNonOverlappingPosition`, entered with counter value `attempts` and
current test position `testPos`. -/
def findLoop (overlap : Vec3 → β → Bool) (existingObjects : List β) (targetPos : Vec3)
    (gridSize : ℚ) (attempts : ℕ) (testPos : Vec3) : Vec3 :=
  if attempts < 50 then
    if hasOverlapAt overlap existingObjects testPos then
      findLoop overlap existingObjects targetPos gridSize (attempts + 1)
        (spiralCandidate targetPos gridSize attempts)
    else
      testPos
  else
    targetPos
termination_by 50 - attempts

/-- `findNonOverlappingPosition(targetPos, object, existingObjects, gridSize)`
from `utils.js` (the cloned `object` enters only through the abstract
`overlap` test). -/
def findNonOverlappingPosition (overlap : Vec3 → β → Bool) (existingObjects : List β)
    (targetPos : Vec3) (gridSize : ℚ) : Vec3 :=
  findLoop overlap existingObjects targetPos gridSize 0 targetPos

/-- Specification-side reading of the search: the list of candidate
positions actually tested, in order — the original target first, then
the spiral offsets computed at counter values `0..48`. -/
def spiralCandidates (targetPos : Vec3) (gridSize : ℚ) : List Vec3 :=
  targetPos :: (List.range 49).map (spiralCandidate targetPos gridSize)

/-! ## Selection manager (`selection.js`)

Only the selection identity (`getSelected()`) is tracked; highlight
materials, cursor changes and render requests are rendering-side
effects.  A pointer event's raycast is abstracted by the collaborator
interface: `hitsObject s` is `raycaster.intersectObject(s, false).length > 0`
and `sceneHits` is `raycaster.intersectObjects(getObjects(), false)`
projected to its objects, in distance order. -/

/-- The raycast outcome for one pointer position. -/
structure Raycast (β : Type) where
  hitsObject : β → Bool
  sceneHits : List β

/-- `selectObject(object)` restricted to its effect on `selectedObject`
(early-returns when the object is already selected). -/
def selectObjectSel [DecidableEq β] (selected : Option β) (object : β) : Option β :=
  if selected = some object then selected else some object

/-- `deselect()` restricted to its effect on `selectedObject` (no-op
while a transform drag is in progress). -/
def deselectSel (isDragging : Bool) (selected : Option β) : Option β :=
  if isDragging then selected else none

/-- `checkIntersection()` from `selection.js` (run on pointer-down),
restricted to its effect on `selectedObject`: the selected object has
raycast priority, a hit on it keeps the selection; otherwise the first
scene hit is selected, and an empty hit list deselects (unless
dragging). -/
def checkIntersection [DecidableEq β] (isDragging : Bool) (ray : Raycast β)
    (selected : Option β) : Option β :=
  match selected with
  | some s =>
    if ray.hitsObject s then
      selected
    else
      match ray.sceneHits.head? with
      | some object => selectObjectSel selected object
      | none => if isDragging then selected else deselectSel isDragging selected
  | none =>
    match ray.sceneHits.head? with
    | some object => selectObjectSel selected object
    | none => if isDragging then selected else deselectSel isDragging selected

/-- `onPointerUp` from `selection.js`, restricted to its effect on
`selectedObject`: selection logic runs only for a click (elapsed time
under 200 ms, movement under the 5-pixel drag threshold, no transform
drag); the selected object keeps raycast priority, a different first
hit is selected, an empty hit list deselects. -/
def onPointerUpSel [DecidableEq β] (isDragging : Bool) (timeDiff moveDist : ℚ)
    (ray : Raycast β) (selected : Option β) : Option β :=
  if timeDiff < 200 ∧ moveDist < 5 ∧ isDragging = false then
    match selected with
    | some s =>
      if ray.hitsObject s then
        selected
      else
        match ray.sceneHits.head? with
        | some object =>
          if object ≠ s then selectObjectSel selected object else selected
        | none => if isDragging then selected else deselectSel isDragging selected
    | none =>
      match ray.sceneHits.head? with
      | some object => selectObjectSel selected object
      | none => if isDragging then selected else deselectSel isDragging selected
  else
    selected

/-! ## Persistence codec (`persistence.js`)

JSON documents (and the values produced by property lookups on them)
are modelled by `Jso`.  `undefined` is the result of reading a missing
property; `NaN` and `±Infinity` are kept distinct from finite numbers
so that truthiness and `Number.isFinite` behave as in JavaScript.
String-to-number coercion inside `parseFloat` is not modelled (no claim
depends on the `color` field, the only place it could matter). -/

/-- A JavaScript value as seen by the persistence codec. -/
inductive Jso where
  | undefined
  | null
  | boolean (b : Bool)
  | num (q : ℚ)
  | nan
  | infinite (neg : Bool)
  | str (s : String)
  | arr (elems : List Jso)
  | obj (fields : List (String × Jso))
deriving Repr

/-- JavaScript truthiness. -/
def jsTruthy : Jso → Bool
  | .undefined => false
  | .null => false
  | .boolean b => b
  | .num q => decide (q ≠ 0)
  | .nan => false
  | .infinite _ => true
  | .str s => decide (s ≠ "")
  | .arr _ => true
  | .obj _ => true

/-- Property read `v[k]`: a missing key — or a read on a non-object —
yields `undefined`.  (The code only reads properties of values already
known to be truthy or objects, so the cases where JavaScript would
throw are unreachable.) -/
def Jso.getField : Jso → String → Jso
  | .obj fields, k => (((fields.find? (fun f => f.1 == k)).map (fun f => f.2)).getD .undefined)
  | _, _ => .undefined

/-- `Number.isFinite`. -/
def isFiniteNumber : Jso → Bool
  | .num _ => true
  | _ => false

/-- The numeric value of a finite number; only applied to values that
passed `isFiniteNumber`. -/
def Jso.asNum : Jso → ℚ
  | .num q => q
  | _ => 0

/-- `isValidNumberArray(arr, expectedLength)` from `utils.js` applied
to a JSON value. -/
def isValidNumberArrayJ (v : Jso) (expectedLength : ℕ) : Bool :=
  match v with
  | .arr xs => decide (xs.length = expectedLength) && xs.all isFiniteNumber
  | _ => false

/-- `Vector3.fromArray` on a validated length-3 number array. -/
def vec3OfList (xs : List Jso) : Vec3 :=
  { x := (xs.getD 0 .undefined).asNum
    y := (xs.getD 1 .undefined).asNum
    z := (xs.getD 2 .undefined).asNum }

/-- `Object.values(OBJECT_TYPES)` from `constants.js`. -/
def OBJECT_TYPES : List String :=
  ["box", "sphere", "cylinder"]

/-- `DEFAULT_COLORS` from `constants.js` (hex colour per type). -/
def DEFAULT_COLORS (typ : String) : ℚ :=
  if typ = "box" then 0x007acc
  else if typ = "sphere" then 0xff6b6b
  else if typ = "cylinder" then 0x4ecdc4
  else 0

/-- The geometry kinds `buildGeometry` can produce. -/
inductive Geom where
  | box
  | sphere
  | cylinder
deriving Repr, DecidableEq

/-- `buildGeometry(type)` from `persistence.js` (dimensions are
rendering data and are not tracked). -/
def buildGeometry (typ : String) : Option Geom :=
  if typ = "box" then some .box
  else if typ = "sphere" then some .sphere
  else if typ = "cylinder" then some .cylinder
  else none

/-- `validateItem(item)` from `persistence.js`. -/
def validateItem (item : Jso) : Bool :=
  let isObjLike :=
    match item with
    | .obj _ => true
    | .arr _ => true
    | _ => false
  let typeOk :=
    match item.getField "type" with
    | .str t => OBJECT_TYPES.contains t
    | _ => false
  let rotationOk :=
    match item.getField "rotation" with
    | .arr xs => decide (3 ≤ xs.length) && (xs.take 3).all isFiniteNumber
    | _ => false
  isObjLike && typeOk && isValidNumberArrayJ (item.getField "position") 3 &&
    isValidNumberArrayJ (item.getField "scale") 3 && rotationOk

/-- `parseFloat` on a JSON value, as used by
`safeParseNumber(item.color, …)`: `some q` when the result is a finite
number.  (Coercion of strings and one-element arrays to numbers is not
modelled; no claim reads the colour.) -/
def jsParseFloatJ : Jso → Option ℚ
  | .num q => some q
  | _ => none

/-- `safeParseNumber` applied to a JSON value. -/
def safeParseNumberJ (v : Jso) (fallback : ℚ) : ℚ :=
  match jsParseFloatJ v with
  | some q => q
  | none => fallback

/-- One reconstructed scene object (the claim-relevant parts of the
`THREE.Mesh` that `loadSceneData` builds and registers). -/
structure SceneObject where
  typ : String
  id : Jso
  name : Jso
  position : Vec3
  rotation : Vec3
  scale : Vec3
  color : ℚ
  createdAt : Jso
deriving Repr

/-- The camera parameters the codec reads and writes
(`camera.position`, `orbitControls.target`, `camera.fov`). -/
structure CameraState where
  position : Vec3
  target : Vec3
  fov : ℚ
deriving Repr, DecidableEq

/-- The mutable editor state `loadSceneData` operates on: the object
registry (`objects.js`), an opaque handle to the current selection, and
the camera parameters. -/
structure EditorState where
  registry : List SceneObject
  selected : Option ℕ
  cam : CameraState
deriving Repr

/-- The aggregate result `loadSceneData` returns. -/
structure LoadResult where
  loadedCount : ℕ
  skippedCount : ℕ
  cameraRestored : Bool
deriving Repr, DecidableEq

/-- The loop accumulator of the `objectsData.forEach` walk. -/
structure LoadAcc where
  registry : List SceneObject
  loadedCount : ℕ
  skippedCount : ℕ
deriving Repr

/-- `item.name || `…`` with the template
``${item.type}-${objectId.substring(0, 4)}``: evaluating the template
calls `.substring` on `objectId`, which throws a `TypeError` unless
`objectId` is a string. -/
def mkName (typ : String) (objectId : Jso) (nameField : Jso) : Except String Jso :=
  if jsTruthy nameField then
    .ok nameField
  else
    match objectId with
    | .str s => .ok (.str (typ ++ "-" ++ s.take 4))
    | _ => .error "TypeError: objectId.substring is not a function"

/-- One iteration of the `objectsData.forEach` loop in `loadSceneData`.
`gen` stands for the (random) string `generateUUID()` would produce and
`now` for `Date.now()`; neither is read by any claim.  An `error`
result is a thrown exception, carrying the registry accumulated so far
(the in-place mutations persist past the throw). -/
def loadStep (gen : String) (now : ℚ) (acc : LoadAcc) (item : Jso) :
    Except (String × LoadAcc) LoadAcc :=
  if validateItem item then
    match item.getField "type" with
    | .str typ =>
      match buildGeometry typ with
      | none => .ok { acc with skippedCount := acc.skippedCount + 1 }
      | some _ =>
        let color := safeParseNumberJ (item.getField "color") (DEFAULT_COLORS typ)
        let position :=
          match item.getField "position" with
          | .arr xs => vec3OfList xs
          | _ => vec3OfList []
        let position := if validatePosition position then position else clampPosition position
        let rotation :=
          match item.getField "rotation" with
          | .arr xs => vec3OfList (xs.take 3)
          | _ => vec3OfList []
        let rotation := if validateRotation rotation then rotation else clampRotation rotation
        let scale :=
          match item.getField "scale" with
          | .arr xs => vec3OfList xs
          | _ => vec3OfList []
        let scale := if validateScale scale then scale else clampScale scale
        let objectId := if jsTruthy (item.getField "id") then item.getField "id" else .str gen
        match mkName typ objectId (item.getField "name") with
        | .error e => .error (e, acc)
        | .ok name =>
          let createdAt :=
            if jsTruthy (item.getField "createdAt") then item.getField "createdAt"
            else .num now
          let mesh : SceneObject :=
            { typ := typ, id := objectId, name := name, position := position
              rotation := rotation, scale := scale, color := color, createdAt := createdAt }
          .ok { registry := acc.registry ++ [mesh]
                loadedCount := acc.loadedCount + 1
                skippedCount := acc.skippedCount }
    | _ => .ok { acc with skippedCount := acc.skippedCount + 1 }
  else
    .ok { acc with skippedCount := acc.skippedCount + 1 }

/-- The `objectsData.forEach` walk, with exception propagation. -/
def loadItems (gen : String) (now : ℚ) : List Jso → LoadAcc → Except (String × LoadAcc) LoadAcc
  | [], acc => .ok acc
  | item :: rest, acc =>
    match loadStep gen now acc item with
    | .error e => .error e
    | .ok acc' => loadItems gen now rest acc'

/-- Root-shape dispatch at the top of `loadSceneData`: a bare array is
the legacy format (no camera data); an object whose `objects` property
is an array is the versioned format with `cameraData = data.camera || null`;
anything else throws.  Returns the objects list and the camera data. -/
def rootDispatch (data : Jso) : Option (List Jso × Jso) :=
  match data with
  | .arr xs => some (xs, .null)
  | .obj _ =>
    match data.getField "objects" with
    | .arr xs =>
      some (xs, if jsTruthy (data.getField "camera") then data.getField "camera" else .null)
    | _ => none
  | _ => none

/-- The camera-restoration block of `loadSceneData`: each field is
restored independently, only when it is valid on its own
(`camera.lookAt` only re-orients toward the already-stored target and
is not tracked). -/
def restoreCamera (cameraData : Jso) (cam : CameraState) : CameraState :=
  let cam :=
    if isValidNumberArrayJ (cameraData.getField "position") 3 then
      { cam with position :=
          match cameraData.getField "position" with
          | .arr xs => vec3OfList xs
          | _ => cam.position }
    else cam
  let cam :=
    if isValidNumberArrayJ (cameraData.getField "target") 3 then
      { cam with target :=
          match cameraData.getField "target" with
          | .arr xs => vec3OfList xs
          | _ => cam.target }
    else cam
  match cameraData.getField "fov" with
  | .num f => if 0 < f ∧ f < 180 then { cam with fov := f } else cam
  | _ => cam

/-- `loadSceneData(data, scene, selectionManager, camera, orbitControls)`
from `persistence.js`, for a call that (as in `main.js`) passes a
camera and orbit controls.  An `error` result is a thrown exception
carrying the state at the moment of the throw (`scene.remove`/
`disposeObject` are rendering-side effects of the registry clear). -/
def loadSceneData (gen : String) (now : ℚ) (data : Jso) (st : EditorState) :
    Except (String × EditorState) (LoadResult × EditorState) :=
  match rootDispatch data with
  | none =>
    .error ("Invalid format: root should be an array or object with objects array", st)
  | some (objectsData, cameraData) =>
    let cleared : EditorState := { st with selected := none, registry := [] }
    match loadItems gen now objectsData { registry := [], loadedCount := 0, skippedCount := 0 } with
    | .error (e, acc) => .error (e, { cleared with registry := acc.registry })
    | .ok acc =>
      let cam := if jsTruthy cameraData then restoreCamera cameraData st.cam else st.cam
      .ok ({ loadedCount := acc.loadedCount, skippedCount := acc.skippedCount
             cameraRestored := jsTruthy cameraData },
           { registry := acc.registry, selected := none, cam := cam })

/-- The input to `importScene`: the UTF-16 length of the JSON text and
the outcome of `JSON.parse` on it (`none` = a `SyntaxError`). -/
structure ImportInput where
  length : ℕ
  parsed : Option Jso

/-- `importScene(jsonString, scene, selectionManager, camera, orbitControls)`
from `persistence.js`: size guard, parse, load; every thrown error is
caught, reported as a single notification, and `null` is returned. -/
def importScene (gen : String) (now : ℚ) (input : ImportInput) (st : EditorState) :
    Option LoadResult × EditorState :=
  if 10 * 1024 * 1024 < input.length then
    (none, st)
  else
    match input.parsed with
    | none => (none, st)
    | some data =>
      match loadSceneData gen now data st with
      | .ok (res, st') => (some res, st')
      | .error (_, st') => (none, st')

/-- Specification-side name for the fov validity condition the code
checks before restoring `camera.fov`:
`Number.isFinite(fov) && fov > 0 && fov < 180`. -/
def fovValid (v : Jso) : Bool :=
  match v with
  | .num f => decide (0 < f ∧ f < 180)
  | _ => false

/-- Specification-side no-crash condition for one accepted record: its
`name` field is truthy, or its `id` field is falsy (a freshly generated
string id is used), or its `id` field is a string.  When it fails — a
truthy non-string `id` together with a falsy `name` — the name template
calls `.substring` on a non-string and the load throws. -/
def itemSafe (item : Jso) : Bool :=
  jsTruthy (item.getField "name") || !jsTruthy (item.getField "id") ||
    (match item.getField "id" with
     | .str _ => true
     | _ => false)

/-- Specification-side projection of a load outcome to its
`(loadedCount, skippedCount)` pair; `none` when the load threw. -/
def loadCounts (r : Except (String × EditorState) (LoadResult × EditorState)) :
    Option (ℕ × ℕ) :=
  match r with
  | .ok (res, _) => some (res.loadedCount, res.skippedCount)
  | .error _ => none

/-! ## Theorems: history manager -/

/-- A bounded push always leaves the pushed element on top (the bound
evicts at the front, so with a positive bound the new top survives). -/
lemma stackPush_getLast? {α : Type} {limit : ℕ} (hlim : 0 < limit) (stack : List α)
    (data : α) : (stackPush limit stack data).getLast? = some data := by
  show (if limit < (stack ++ [data]).length then (stack ++ [data]).tail
    else (stack ++ [data])).getLast? = some data
  split
  · cases stack with
    | nil => simp_all
    | cons a t => simp [List.getLast?_concat]
  · simp [List.getLast?_concat]

/-- C2.  History round trips: `record(); undo()` restores the scene
snapshot current at the time of `record` (entity-for-entity equality of
the registry snapshot), and on any state with a non-empty undo stack
`undo(); redo()` returns to exactly the state current before the
`undo`.  The stack bound is positive (the source default is 50). -/
theorem history_record_undo_redo_roundtrip {α : Type} (limit : ℕ) (st : HistoryState α)
    (hlim : 0 < limit) :
    (undo limit (record limit st)).current = st.current ∧
    (st.undoStack ≠ [] → (redo limit (undo limit st)).current = st.current) := by
  constructor
  · show (undo limit (record limit st)).current = st.current
    unfold undo record
    simp only [stackPush_getLast? hlim]
  · intro hne
    have hlast : st.undoStack.getLast? = some (st.undoStack.getLast hne) :=
      List.getLast?_eq_getLast st.undoStack hne
    unfold undo
    simp only [hlast]
    unfold redo
    simp only [stackPush_getLast? hlim]

/-- Witness for C2 at a concrete history state. -/
theorem history_record_undo_redo_roundtrip_witness :
    (undo 2 (record 2 ⟨[0], [], (1 : ℕ)⟩)).current = 1 ∧
    (redo 2 (undo 2 ⟨[0], [], (1 : ℕ)⟩)).current = 1 :=
  ⟨(history_record_undo_redo_roundtrip 2 ⟨[0], [], 1⟩ (by decide)).1,
   (history_record_undo_redo_roundtrip 2 ⟨[0], [], 1⟩ (by decide)).2 (by decide)⟩

/-- Every record-then-edit run leaves an empty redo stack. -/
lemma recordRun_redoStack {α : Type} (limit : ℕ) (f : ℕ → α) (n : ℕ) :
    (recordRun limit f n).redoStack = [] := by
  cases n with
  | zero => rfl
  | succ n => rfl

/-- The scene snapshot after `n` record-then-edit steps is `f n`. -/
lemma recordRun_current {α : Type} (limit : ℕ) (f : ℕ → α) (n : ℕ) :
    (recordRun limit f n).current = f n := by
  cases n with
  | zero => rfl
  | succ n => rfl

/-- A bounded push onto the suffix kept from a list of length `n`
extends the kept suffix of the list grown by one element. -/
lemma stackPush_drop {α : Type} (limit : ℕ) (L : List α) (x : α) :
    stackPush limit (L.drop (L.length - limit)) x = (L ++ [x]).drop (L.length + 1 - limit) := by
  show (if limit < (L.drop (L.length - limit) ++ [x]).length then (L.drop (L.length - limit) ++ [x]).tail
    else (L.drop (L.length - limit) ++ [x])) = (L ++ [x]).drop (L.length + 1 - limit)
  have hdrop : L.drop (L.length - limit) ++ [x] = (L ++ [x]).drop (L.length - limit) := by
    rw [List.drop_append_of_le_length (by omega)]
  rcases Nat.lt_or_ge L.length limit with hcase | hcase
  · have h1 : L.length - limit = 0 := by omega
    have h2 : L.length + 1 - limit = 0 := by omega
    simp only [h1, List.drop_zero, h2]
    have hlen : (L ++ [x]).length = L.length + 1 := by simp
    split
    · next hcond =>
      exfalso
      simp only [List.length_append, List.length_cons, List.length_nil] at hcond
      omega
    · rfl
  · have hlen : (L.drop (L.length - limit) ++ [x]).length = limit + 1 := by
      simp only [List.length_append, List.length_drop, List.length_cons, List.length_nil]
      omega
    split
    · next hcond =>
      rw [hdrop, List.tail_drop]
      congr 1
      omega
    · next hcond =>
      exfalso
      rw [hlen] at hcond
      omega

/-- After `n` record-then-edit steps the undo stack holds the snapshots
`f 0 … f (n-1)`, truncated at the front to the most recent `limit`. -/
lemma recordRun_undoStack {α : Type} (limit : ℕ) (f : ℕ → α) (n : ℕ) :
    (recordRun limit f n).undoStack = ((List.range n).map f).drop (n - limit) := by
  induction n with
  | zero => simp [recordRun]
  | succ n ih =>
    show stackPush limit (recordRun limit f n).undoStack (recordRun limit f n).current = _
    rw [ih, recordRun_current]
    have hlen : ((List.range n).map f).length = n := by simp
    have hx : f n = ((List.range n).map f ++ [f n]).getLast (by simp) := by
      simp [List.getLast_append]
    calc stackPush limit (((List.range n).map f).drop (n - limit)) (f n)
        = stackPush limit (((List.range n).map f).drop (((List.range n).map f).length - limit))
            (f n) := by rw [hlen]
      _ = ((List.range n).map f ++ [f n]).drop (((List.range n).map f).length + 1 - limit) := by
            rw [stackPush_drop]
      _ = ((List.range (n + 1)).map f).drop (n + 1 - limit) := by
            rw [List.range_succ, List.map_append, hlen]
            rfl

/-- Undoing as many times as the undo stack is deep lands on the
oldest retained snapshot (the first element of the stack list). -/
lemma undo_iterate_oldest {α : Type} (limit : ℕ) :
    ∀ (n : ℕ) (a : α) (t r : List α) (c : α), (a :: t).length = n →
      ((fun s => undo limit s)^[n] ⟨a :: t, r, c⟩).current = a := by
  intro n
  induction n with
  | zero => intro a t r c hlen; simp at hlen
  | succ n ih =>
    intro a t r c hlen
    rw [Function.iterate_succ_apply]
    have hne : (a :: t) ≠ [] := by simp
    have hlast : (a :: t).getLast? = some ((a :: t).getLast hne) :=
      List.getLast?_eq_getLast _ hne
    show ((fun s => undo limit s)^[n] (undo limit ⟨a :: t, r, c⟩)).current = a
    unfold undo
    simp only [hlast]
    cases t with
    | nil =>
      have hn : n = 0 := by simpa using hlen
      subst hn
      simp [List.getLast]
    | cons b t' =>
      have hdrop : (a :: b :: t').dropLast = a :: (b :: t').dropLast := rfl
      rw [hdrop]
      apply ih
      have : (b :: t').dropLast.length = t'.length := by simp
      simp only [List.length_cons] at hlen ⊢
      omega

/-- C3.  History bound and FIFO eviction: starting from a fresh
history, after `limit + 5` record-then-edit steps the undo stack length
equals `limit`, the oldest five snapshots have been evicted — undoing
`limit` times reaches the snapshot taken by the sixth `record()` call
(`f 5`), not the initial state `f 0` — and every `record()` call
empties the redo stack. -/
theorem history_bound_fifo_eviction {α : Type} (limit : ℕ) (f : ℕ → α) :
    (recordRun limit f (limit + 5)).undoStack.length = limit ∧
    ((fun s => undo limit s)^[limit] (recordRun limit f (limit + 5))).current = f 5 ∧
    (f 5 ≠ f 0 →
      ((fun s => undo limit s)^[limit] (recordRun limit f (limit + 5))).current ≠ f 0) ∧
    (∀ st : HistoryState α, (record limit st).redoStack = []) := by
  have hstack := recordRun_undoStack limit f (limit + 5)
  have hsub : limit + 5 - limit = 5 := by omega
  rw [hsub] at hstack
  have hlen : (recordRun limit f (limit + 5)).undoStack.length = limit := by
    rw [hstack]
    simp only [List.length_drop, List.length_map, List.length_range]
    omega
  have hcur : ((fun s => undo limit s)^[limit] (recordRun limit f (limit + 5))).current
      = f 5 := by
    rcases Nat.eq_zero_or_pos limit with hzero | hpos
    · subst hzero
      simpa using recordRun_current 0 f 5
    · have h5 : 5 < ((List.range (limit + 5)).map f).length := by
        simp only [List.length_map, List.length_range]
        omega
      have hget : ((List.range (limit + 5)).map f)[5] = f 5 := by
        simp
      have hcons : ((List.range (limit + 5)).map f).drop 5
          = f 5 :: ((List.range (limit + 5)).map f).drop 6 := by
        rw [List.drop_eq_getElem_cons h5, hget]
      rw [hcons] at hstack
      have hstlen : (f 5 :: ((List.range (limit + 5)).map f).drop 6).length = limit := by
        rw [← hstack]
        exact hlen
      have := undo_iterate_oldest limit limit (f 5)
        (((List.range (limit + 5)).map f).drop 6)
        (recordRun limit f (limit + 5)).redoStack
        (recordRun limit f (limit + 5)).current hstlen
      calc ((fun s => undo limit s)^[limit] (recordRun limit f (limit + 5))).current
          = ((fun s => undo limit s)^[limit]
              (⟨f 5 :: ((List.range (limit + 5)).map f).drop 6,
                (recordRun limit f (limit + 5)).redoStack,
                (recordRun limit f (limit + 5)).current⟩ : HistoryState α)).current := by
            rw [← hstack]
        _ = f 5 := this
  refine ⟨hlen, hcur, ?_, fun st => rfl⟩
  intro hneq
  rw [hcur]
  exact hneq

/-- Witness for C3 at `limit = 2` and pairwise distinct snapshots. -/
theorem history_bound_fifo_eviction_witness :
    (recordRun 2 (fun n : ℕ => n) 7).undoStack.length = 2 ∧
    ((fun s => undo 2 s)^[2] (recordRun 2 (fun n : ℕ => n) 7)).current = 5 ∧
    ((fun s => undo 2 s)^[2] (recordRun 2 (fun n : ℕ => n) 7)).current ≠ 0 :=
  ⟨(history_bound_fifo_eviction 2 (fun n : ℕ => n)).1,
   (history_bound_fifo_eviction 2 (fun n : ℕ => n)).2.1,
   (history_bound_fifo_eviction 2 (fun n : ℕ => n)).2.2.1 (by decide)⟩

/-! ## Theorems: transform mutator -/

lemma mathPi_pos : (0 : ℚ) < mathPi := by
  norm_num [mathPi]

lemma mathPi_ne_zero : mathPi ≠ 0 :=
  ne_of_gt mathPi_pos

/-- Degrees → radians → degrees is exact in the model. -/
lemma rad_deg_cancel (q : ℚ) : q * mathPi / 180 * 180 / mathPi = q := by
  field_simp
  rw [mul_div_assoc, div_self mathPi_ne_zero, mul_one]

/-- Reading back the component just written. -/
lemma Vec3.get_set_same (v : Vec3) (a : Axis) (q : ℚ) : (v.set a q).get a = q := by
  cases a <;> rfl

/-- `clampScale` acts componentwise. -/
lemma clampScale_get (v : Vec3) (a : Axis) :
    (clampScale v).get a = clampQ SCALE_LIMITS.min SCALE_LIMITS.max (v.get a) := by
  cases a <;> rfl

/-- `clampRotation` acts componentwise. -/
lemma clampRotation_get (v : Vec3) (a : Axis) :
    (clampRotation v).get a = clampDeg (v.get a * 180 / mathPi) := by
  cases a <;> rfl

lemma clampQ_mem {lo hi : ℚ} (h : lo ≤ hi) (v : ℚ) :
    lo ≤ clampQ lo hi v ∧ clampQ lo hi v ≤ hi := by
  unfold clampQ
  constructor
  · exact le_max_left lo _
  · rcases le_total v hi with hv | hv
    · rw [min_eq_right hv]
      rcases le_total lo v with h2 | h2
      · rwa [max_eq_right h2]
      · rwa [max_eq_left h2]
    · rw [min_eq_left hv, max_eq_right h]

lemma clampQ_of_mem {lo hi v : ℚ} (h1 : lo ≤ v) (h2 : v ≤ hi) : clampQ lo hi v = v := by
  unfold clampQ
  rw [min_eq_right h2, max_eq_right h1]

/-- The normalisation step of `updateObjectRotationDeg` — remainder by
360 with forward wrap of negatives — lands in `[0, 360)` and differs
from the input by an integer multiple of 360. -/
lemma jsMod360_wrap (v : ℚ) :
    0 ≤ (if jsMod v 360 < 0 then jsMod v 360 + 360 else jsMod v 360) ∧
    (if jsMod v 360 < 0 then jsMod v 360 + 360 else jsMod v 360) < 360 ∧
    ∃ k : ℤ, (if jsMod v 360 < 0 then jsMod v 360 + 360 else jsMod v 360) = v - 360 * k := by
  have hbound : -360 < jsMod v 360 ∧ jsMod v 360 < 360 := by
    unfold jsMod jsTrunc
    have hv360 : (360 : ℚ) * (v / 360) = v := by field_simp
    rcases le_or_lt 0 v with hv | hv
    · have hq : 0 ≤ v / 360 := by positivity
      rw [if_pos hq]
      have h1 : (⌊v / 360⌋ : ℚ) ≤ v / 360 := Int.floor_le _
      have h2 : v / 360 < ⌊v / 360⌋ + 1 := Int.lt_floor_add_one _
      have h1' : (360 : ℚ) * (⌊v / 360⌋ : ℚ) ≤ v := by
        calc (360 : ℚ) * (⌊v / 360⌋ : ℚ) ≤ 360 * (v / 360) := by linarith
          _ = v := hv360
      have h2' : v < 360 * ((⌊v / 360⌋ : ℚ) + 1) := by
        calc v = 360 * (v / 360) := hv360.symm
          _ < 360 * ((⌊v / 360⌋ : ℚ) + 1) := by linarith
      constructor <;> linarith
    · have hq : ¬ (0 : ℚ) ≤ v / 360 := by
        intro hcon
        have : (0 : ℚ) ≤ v := by
          calc (0 : ℚ) = 360 * 0 := by norm_num
            _ ≤ 360 * (v / 360) := by linarith
            _ = v := hv360
        linarith
      rw [if_neg hq]
      have h1 : v / 360 ≤ (⌈v / 360⌉ : ℚ) := Int.le_ceil _
      have h2 : (⌈v / 360⌉ : ℚ) < v / 360 + 1 := Int.ceil_lt_add_one _
      have h1' : v ≤ 360 * (⌈v / 360⌉ : ℚ) := by
        calc v = 360 * (v / 360) := hv360.symm
          _ ≤ 360 * (⌈v / 360⌉ : ℚ) := by linarith
      have h2' : (360 : ℚ) * (⌈v / 360⌉ : ℚ) < v + 360 := by
        calc (360 : ℚ) * (⌈v / 360⌉ : ℚ) < 360 * (v / 360 + 1) := by linarith
          _ = v + 360 := by rw [mul_add, hv360]; norm_num
      constructor <;> linarith
  have hdiff : ∃ k : ℤ, jsMod v 360 = v - 360 * k :=
    ⟨jsTrunc (v / 360), rfl⟩
  rcases hdiff with ⟨k, hk⟩
  split
  · next hneg =>
    refine ⟨by linarith [hbound.1], by linarith, ⟨k - 1, ?_⟩⟩
    push_cast
    linarith [hk]
  · next hpos =>
    exact ⟨by linarith, hbound.2, ⟨k, hk⟩⟩

/-- A value already in `[0, 360)` is a fixed point of the wrap. -/
lemma jsMod360_fixed {v : ℚ} (h1 : 0 ≤ v) (h2 : v < 360) : jsMod v 360 = v := by
  unfold jsMod jsTrunc
  have hq : 0 ≤ v / 360 := by positivity
  rw [if_pos hq]
  have hfl : ⌊v / 360⌋ = 0 := by
    rw [Int.floor_eq_zero_iff]
    constructor
    · exact hq
    · rw [div_lt_one (by norm_num : (0:ℚ) < 360)]
      exact h2
  rw [hfl]
  push_cast
  ring

lemma clampQ_of_le {lo hi v : ℚ} (h1 : v ≤ lo) (h2 : lo ≤ hi) : clampQ lo hi v = lo := by
  unfold clampQ
  rw [min_eq_right (le_trans h1 h2), max_eq_left h1]

/-- The post-assignment validate/clamp step of `updateObjectScale`
keeps a value that already sits inside the scale limits. -/
lemma scale_branch_get (o : Obj3D) (axis : Axis) {w : ℚ}
    (h1 : SCALE_LIMITS.min ≤ w) (h2 : w ≤ SCALE_LIMITS.max) :
    (if validateScale (o.scale.set axis w) then o.scale.set axis w
     else clampScale (o.scale.set axis w)).get axis = w := by
  split
  · exact Vec3.get_set_same o.scale axis w
  · rw [clampScale_get, Vec3.get_set_same, clampQ_of_mem h1 h2]

/-- C4.  `updateObjectRotationDeg` stores, on the edited axis, a radian
value whose degree reading lies in `[0, 360)` and is congruent modulo
360 to the parsed input — the raw degrees when they parse to a finite
number, the current axis value converted to degrees otherwise (the
fallback); the `[0, 360)` landing shows the normalisation wraps
negatives forward and the clamp to the `[0, 360]` rotation limits is
already satisfied.  In particular raw input `-30` stores 330 degrees
(as radians), not `-30`. -/
theorem rotation_deg_normalizes (o : Obj3D) (axis : Axis) (degValue : RawInput) :
    (0 ≤ ((updateObjectRotationDeg (some o) axis degValue).getD o).rotation.get axis
        * 180 / mathPi ∧
      ((updateObjectRotationDeg (some o) axis degValue).getD o).rotation.get axis
        * 180 / mathPi < 360) ∧
    (∀ q : ℚ, degValue = RawInput.num q →
      ∃ k : ℤ, ((updateObjectRotationDeg (some o) axis degValue).getD o).rotation.get axis
        * 180 / mathPi = q - 360 * k) ∧
    (degValue = RawInput.malformed →
      ∃ k : ℤ, ((updateObjectRotationDeg (some o) axis degValue).getD o).rotation.get axis
        * 180 / mathPi = o.rotation.get axis * 180 / mathPi - 360 * k) ∧
    (axis = Axis.x → degValue = RawInput.num (-30) →
      ((updateObjectRotationDeg (some o) axis degValue).getD o).rotation.get Axis.x
        = 330 * mathPi / 180) := by
  have hwrap := jsMod360_wrap (safeParseNumber degValue (o.rotation.get axis * 180 / mathPi))
  generalize hM : (if jsMod (safeParseNumber degValue (o.rotation.get axis * 180 / mathPi)) 360 < 0
      then jsMod (safeParseNumber degValue (o.rotation.get axis * 180 / mathPi)) 360 + 360
      else jsMod (safeParseNumber degValue (o.rotation.get axis * 180 / mathPi)) 360)
      = mWrap at hwrap
  obtain ⟨hge, hlt, k0, hk0⟩ := hwrap
  have hcl : clampQ ROTATION_LIMITS.min ROTATION_LIMITS.max mWrap = mWrap := by
    have := @clampQ_of_mem 0 360 mWrap hge (le_of_lt hlt)
    simpa [ROTATION_LIMITS] using this
  have hget : ((updateObjectRotationDeg (some o) axis degValue).getD o).rotation.get axis
      = mWrap * mathPi / 180 := by
    simp only [updateObjectRotationDeg, Option.getD_some]
    rw [hM, hcl]
    split
    · exact Vec3.get_set_same o.rotation axis _
    · rw [clampRotation_get, Vec3.get_set_same, rad_deg_cancel]
      show (if jsMod mWrap 360 < 0 then jsMod mWrap 360 + 360 else jsMod mWrap 360)
          * mathPi / 180 = mWrap * mathPi / 180
      rw [jsMod360_fixed hge hlt, if_neg (not_lt.mpr hge)]
  refine ⟨⟨?_, ?_⟩, ?_, ?_, ?_⟩
  · rw [hget, rad_deg_cancel]
    exact hge
  · rw [hget, rad_deg_cancel]
    exact hlt
  · intro q hq
    refine ⟨k0, ?_⟩
    rw [hget, rad_deg_cancel, hk0, hq]
    simp [safeParseNumber]
  · intro hq
    refine ⟨k0, ?_⟩
    rw [hget, rad_deg_cancel, hk0, hq]
    simp [safeParseNumber]
  · intro hax hdeg
    subst hax
    subst hdeg
    have hj : jsMod (-30 : ℚ) 360 = -30 := by
      unfold jsMod jsTrunc
      rw [if_neg (by norm_num)]
      have hc : ⌈(-30 : ℚ) / 360⌉ = 0 := by
        rw [Int.ceil_eq_zero_iff]
        constructor <;> norm_num
      rw [hc]
      norm_num
    have hm330 : mWrap = 330 := by
      rw [← hM]
      simp only [safeParseNumber]
      rw [hj]
      norm_num
    rw [hget, hm330]

/-- Witness for C4: an entity with zero rotation, axis `x`, raw input
`-30`. -/
theorem rotation_deg_normalizes_witness :
    ((updateObjectRotationDeg (some ⟨⟨0, 0, 0⟩, ⟨0, 0, 0⟩, ⟨1, 1, 1⟩⟩) Axis.x
        (RawInput.num (-30))).getD ⟨⟨0, 0, 0⟩, ⟨0, 0, 0⟩, ⟨1, 1, 1⟩⟩).rotation.get Axis.x
      = 330 * mathPi / 180 ∧
    0 ≤ ((updateObjectRotationDeg (some ⟨⟨0, 0, 0⟩, ⟨0, 0, 0⟩, ⟨1, 1, 1⟩⟩) Axis.x
        (RawInput.num (-30))).getD ⟨⟨0, 0, 0⟩, ⟨0, 0, 0⟩, ⟨1, 1, 1⟩⟩).rotation.get Axis.x
        * 180 / mathPi :=
  ⟨(rotation_deg_normalizes ⟨⟨0, 0, 0⟩, ⟨0, 0, 0⟩, ⟨1, 1, 1⟩⟩ Axis.x
      (RawInput.num (-30))).2.2.2 rfl rfl,
   (rotation_deg_normalizes ⟨⟨0, 0, 0⟩, ⟨0, 0, 0⟩, ⟨1, 1, 1⟩⟩ Axis.x
      (RawInput.num (-30))).1.1⟩

/-- C5.  After `updateObjectScale` every scale component lies within
`[SCALE_MIN, SCALE_MAX] = [0.1, 10]`; an input parsing at or below
`SCALE_MIN` (such as `-5`) is stored as exactly `SCALE_MIN`; and a
malformed input falls back to the entity's current axis value (exactly,
whenever that value respects the scale invariant) without raising. -/
theorem scale_clamped_total (o : Obj3D) (axis : Axis) (value : RawInput) :
    (SCALE_LIMITS.min ≤ ((updateObjectScale (some o) axis value).getD o).scale.x ∧
      ((updateObjectScale (some o) axis value).getD o).scale.x ≤ SCALE_LIMITS.max ∧
      SCALE_LIMITS.min ≤ ((updateObjectScale (some o) axis value).getD o).scale.y ∧
      ((updateObjectScale (some o) axis value).getD o).scale.y ≤ SCALE_LIMITS.max ∧
      SCALE_LIMITS.min ≤ ((updateObjectScale (some o) axis value).getD o).scale.z ∧
      ((updateObjectScale (some o) axis value).getD o).scale.z ≤ SCALE_LIMITS.max) ∧
    (∀ q : ℚ, value = RawInput.num q → q ≤ SCALE_LIMITS.min →
      ((updateObjectScale (some o) axis value).getD o).scale.get axis = SCALE_LIMITS.min) ∧
    (value = RawInput.malformed →
      SCALE_LIMITS.min ≤ o.scale.get axis → o.scale.get axis ≤ SCALE_LIMITS.max →
      ((updateObjectScale (some o) axis value).getD o).scale.get axis = o.scale.get axis) := by
  have hmm : SCALE_LIMITS.min ≤ SCALE_LIMITS.max := by
    norm_num [SCALE_LIMITS]
  refine ⟨?_, ?_, ?_⟩
  · simp only [updateObjectScale, Option.getD_some]
    split
    · next hval =>
      unfold validateScale at hval
      rw [decide_eq_true_eq] at hval
      exact ⟨hval.1, hval.2.1, hval.2.2.1, hval.2.2.2.1, hval.2.2.2.2.1, hval.2.2.2.2.2⟩
    · refine ⟨?_, ?_, ?_, ?_, ?_, ?_⟩ <;>
        first
          | exact (clampQ_mem hmm _).1
          | exact (clampQ_mem hmm _).2
  · intro q hq hqle
    subst hq
    simp only [updateObjectScale, Option.getD_some, safeParseNumber]
    rw [clampQ_of_le hqle hmm]
    exact scale_branch_get o axis le_rfl hmm
  · intro hq h1 h2
    subst hq
    simp only [updateObjectScale, Option.getD_some, safeParseNumber]
    rw [clampQ_of_mem h1 h2]
    exact scale_branch_get o axis h1 h2

/-- Witness for C5: raw input `-5` on axis `y` of a unit-scale entity
clamps to `SCALE_MIN = 0.1`, and a malformed input keeps the current
value `1`. -/
theorem scale_clamped_total_witness :
    ((updateObjectScale (some ⟨⟨0, 0, 0⟩, ⟨0, 0, 0⟩, ⟨1, 1, 1⟩⟩) Axis.y
        (RawInput.num (-5))).getD ⟨⟨0, 0, 0⟩, ⟨0, 0, 0⟩, ⟨1, 1, 1⟩⟩).scale.get Axis.y
      = SCALE_LIMITS.min ∧
    ((updateObjectScale (some ⟨⟨0, 0, 0⟩, ⟨0, 0, 0⟩, ⟨1, 1, 1⟩⟩) Axis.y
        RawInput.malformed).getD ⟨⟨0, 0, 0⟩, ⟨0, 0, 0⟩, ⟨1, 1, 1⟩⟩).scale.get Axis.y = 1 :=
  ⟨(scale_clamped_total ⟨⟨0, 0, 0⟩, ⟨0, 0, 0⟩, ⟨1, 1, 1⟩⟩ Axis.y (RawInput.num (-5))).2.1
      (-5) rfl (by norm_num [SCALE_LIMITS]),
   (scale_clamped_total ⟨⟨0, 0, 0⟩, ⟨0, 0, 0⟩, ⟨1, 1, 1⟩⟩ Axis.y RawInput.malformed).2.2
      rfl (by norm_num [SCALE_LIMITS, Vec3.get]) (by norm_num [SCALE_LIMITS, Vec3.get])⟩

/-- C10.  The missing-entity guard: each of the three transform
mutators, invoked with a null/undefined object, returns without
modifying anything and without throwing. -/
theorem transform_mutators_null_guard (axis : Axis) (value : RawInput) :
    updateObjectPosition none axis value = none ∧
    updateObjectRotationDeg none axis value = none ∧
    updateObjectScale none axis value = none :=
  ⟨rfl, rfl, rfl⟩

/-! ## Theorems: placement spiral search -/

/-- The loop of `findNonOverlappingPosition`, entered at counter `k`
with test position `p`, returns the first overlap-free element of
`p` followed by the spiral candidates for counters `k, …, 48`, and the
original target when every one of them overlaps. -/
lemma findLoop_eq_find {β : Type} (overlap : Vec3 → β → Bool) (existingObjects : List β)
    (targetPos : Vec3) (gridSize : ℚ) :
    ∀ (n k : ℕ), k + n = 49 → ∀ p : Vec3,
      findLoop overlap existingObjects targetPos gridSize k p
        = ((p :: (List.range' k (49 - k)).map (spiralCandidate targetPos gridSize)).find?
            (fun c => !hasOverlapAt overlap existingObjects c)).getD targetPos := by
  intro n
  induction n with
  | zero =>
    intro k hk p
    have hk49 : k = 49 := by omega
    subst hk49
    unfold findLoop
    rw [if_pos (by norm_num : (49 : ℕ) < 50)]
    have hrange : (49 : ℕ) - 49 = 0 := by norm_num
    rw [hrange]
    cases hov : hasOverlapAt overlap existingObjects p with
    | false =>
      rw [if_neg (by simp [hov])]
      rw [List.find?_cons_of_pos _ (by simp [hov])]
      rfl
    | true =>
      rw [if_pos (by simp [hov])]
      rw [List.find?_cons_of_neg _ (by simp [hov])]
      unfold findLoop
      rw [if_neg (by norm_num : ¬ (50 : ℕ) < 50)]
      rfl
  | succ n ih =>
    intro k hk p
    unfold findLoop
    rw [if_pos (by omega : k < 50)]
    have hrange : 49 - k = n + 1 := by omega
    rw [hrange, List.range'_succ, List.map_cons]
    cases hov : hasOverlapAt overlap existingObjects p with
    | false =>
      rw [if_neg (by simp [hov])]
      rw [List.find?_cons_of_pos _ (by simp [hov])]
      rfl
    | true =>
      rw [if_pos (by simp [hov])]
      rw [List.find?_cons_of_neg _ (by simp [hov])]
      have := ih (k + 1) (by omega) (spiralCandidate targetPos gridSize k)
      rw [this]
      have hrange2 : 49 - (k + 1) = n := by omega
      rw [hrange2]

/-- C8.  The overlap-resolution spiral search tests exactly the 50
candidates "original target, then for `k = 0, …, 48` the position
offset from the original target by
`radius(k)·gridSize·(cos(k·0.5π), sin(k·0.5π))` on X/Z with
`radius(k) = ⌊k/4⌋ + 1`, Y held fixed, X/Z clamped to the workspace
bounds" — it returns the first of them that overlaps no existing
object's bounding volume, and falls back to the original (possibly
overlapping) target position when all of them collide. -/
theorem spiral_search_first_free {β : Type} (overlap : Vec3 → β → Bool)
    (existingObjects : List β) (targetPos : Vec3) (gridSize : ℚ) :
    (spiralCandidates targetPos gridSize).length = 50 ∧
    findNonOverlappingPosition overlap existingObjects targetPos gridSize
      = ((spiralCandidates targetPos gridSize).find?
          (fun c => !hasOverlapAt overlap existingObjects c)).getD targetPos := by
  constructor
  · simp [spiralCandidates]
  · unfold findNonOverlappingPosition spiralCandidates
    have := findLoop_eq_find overlap existingObjects targetPos gridSize 49 0 (by norm_num)
      targetPos
    rw [this]
    rw [List.range_eq_range']

/-! ## Theorems: selection manager -/

/-- C9.  A click whose ray hits the currently selected entity never
changes the selection: both the pointer-down path
(`checkIntersection`) and the pointer-up click path keep
`getSelected()` identical, no matter which other entities the ray also
hits. -/
theorem selected_click_keeps_selection {β : Type} [DecidableEq β] (isDragging : Bool)
    (timeDiff moveDist : ℚ) (ray : Raycast β) (s : β)
    (hhit : ray.hitsObject s = true) :
    checkIntersection isDragging ray (some s) = some s ∧
    onPointerUpSel isDragging timeDiff moveDist ray (some s) = some s := by
  constructor
  · simp [checkIntersection, hhit]
  · unfold onPointerUpSel
    split
    · simp [hhit]
    · rfl

/-- Witness for C9: entity `3` selected, ray hitting it (and another
entity `7` first in the scene list), during a fast small-movement
click. -/
theorem selected_click_keeps_selection_witness :
    checkIntersection false ⟨fun _ => true, [7, 3]⟩ (some (3 : ℕ)) = some 3 ∧
    onPointerUpSel false 100 0 ⟨fun _ => true, [7, 3]⟩ (some (3 : ℕ)) = some 3 :=
  ⟨(selected_click_keeps_selection false 100 0 ⟨fun _ => true, [7, 3]⟩ 3 rfl).1,
   (selected_click_keeps_selection false 100 0 ⟨fun _ => true, [7, 3]⟩ 3 rfl).2⟩

/-! ## Theorems: persistence codec -/

/-- A root that is neither an array nor an object with an `objects`
array makes `loadSceneData` throw before touching any state. -/
lemma loadSceneData_invalid_root {gen : String} {now : ℚ} {data : Jso} {st : EditorState}
    (hroot : rootDispatch data = none) :
    loadSceneData gen now data st
      = .error ("Invalid format: root should be an array or object with objects array", st) := by
  unfold loadSceneData
  rw [hroot]

/-- C7.  Whole-document failure leaves the scene untouched: when the
JSON text exceeds the 10 MB ceiling, fails to parse, or parses to an
invalid root shape, `importScene` reports a single failure (returns
`null`) and the registry, selection and camera are exactly as before —
no partial load occurs. -/
theorem import_failure_leaves_state_unchanged (gen : String) (now : ℚ)
    (input : ImportInput) (st : EditorState)
    (hbad : 10 * 1024 * 1024 < input.length ∨ input.parsed = none ∨
      (∃ d, input.parsed = some d ∧ rootDispatch d = none)) :
    importScene gen now input st = (none, st) := by
  unfold importScene
  rcases hbad with hsize | hparse | ⟨d, hd, hroot⟩
  · rw [if_pos hsize]
  · split
    · rfl
    · rw [hparse]
  · split
    · rfl
    · rw [hd]
      dsimp only
      rw [loadSceneData_invalid_root hroot]

/-- Witness for C7: an oversized text, an unparsable text, and a
parsable text whose root is a bare number, against a non-trivial
editor state. -/
theorem import_failure_leaves_state_unchanged_witness :
    importScene "gen0000" 0 ⟨10485761, none⟩
      ⟨[], some 4, ⟨⟨1, 2, 3⟩, ⟨0, 0, 0⟩, 50⟩⟩
      = (none, ⟨[], some 4, ⟨⟨1, 2, 3⟩, ⟨0, 0, 0⟩, 50⟩⟩) ∧
    importScene "gen0000" 0 ⟨5, none⟩
      ⟨[], some 4, ⟨⟨1, 2, 3⟩, ⟨0, 0, 0⟩, 50⟩⟩
      = (none, ⟨[], some 4, ⟨⟨1, 2, 3⟩, ⟨0, 0, 0⟩, 50⟩⟩) ∧
    importScene "gen0000" 0 ⟨5, some (Jso.num 7)⟩
      ⟨[], some 4, ⟨⟨1, 2, 3⟩, ⟨0, 0, 0⟩, 50⟩⟩
      = (none, ⟨[], some 4, ⟨⟨1, 2, 3⟩, ⟨0, 0, 0⟩, 50⟩⟩) :=
  ⟨import_failure_leaves_state_unchanged "gen0000" 0 ⟨10485761, none⟩
      ⟨[], some 4, ⟨⟨1, 2, 3⟩, ⟨0, 0, 0⟩, 50⟩⟩ (Or.inl (by decide)),
   import_failure_leaves_state_unchanged "gen0000" 0 ⟨5, none⟩
      ⟨[], some 4, ⟨⟨1, 2, 3⟩, ⟨0, 0, 0⟩, 50⟩⟩ (Or.inr (Or.inl rfl)),
   import_failure_leaves_state_unchanged "gen0000" 0 ⟨5, some (Jso.num 7)⟩
      ⟨[], some 4, ⟨⟨1, 2, 3⟩, ⟨0, 0, 0⟩, 50⟩⟩ (Or.inr (Or.inr ⟨Jso.num 7, rfl, rfl⟩))⟩

/-- When every camera sub-field fails its own validity check, the
restoration block changes nothing. -/
lemma restoreCamera_invalid {c : Jso} {cam : CameraState}
    (hp : isValidNumberArrayJ (c.getField "position") 3 = false)
    (ht : isValidNumberArrayJ (c.getField "target") 3 = false)
    (hf : fovValid (c.getField "fov") = false) :
    restoreCamera c cam = cam := by
  unfold restoreCamera
  simp only [hp, ht, Bool.false_eq_true, if_false]
  cases hv : c.getField "fov" with
  | num f =>
    have hnf : ¬ (0 < f ∧ f < 180) := by
      unfold fovValid at hf
      rw [hv] at hf
      simpa using hf
    dsimp only
    rw [if_neg hnf]
  | undefined => rfl
  | null => rfl
  | boolean b => rfl
  | nan => rfl
  | infinite neg => rfl
  | str s => rfl
  | arr elems => rfl
  | obj fields => rfl

/-- C1 counterexample: a versioned document whose `camera` block is
present but entirely invalid — `position` has length 2, `target` is a
number, `fov` is 500 — loads with the camera untouched yet reports
`cameraRestored: true` (the code returns `!!cameraData`, which ignores
field validity), where the claim requires `false`. -/
theorem cameraRestored_true_despite_invalid_block :
    loadSceneData "gen0000" 0
      (Jso.obj [("objects", Jso.arr []),
        ("camera", Jso.obj [("position", Jso.arr [Jso.num 1, Jso.num 2]),
          ("target", Jso.num 3), ("fov", Jso.num 500)])])
      ⟨[], some 0, ⟨⟨1, 2, 3⟩, ⟨4, 5, 6⟩, 50⟩⟩
      = .ok (⟨0, 0, true⟩, ⟨[], none, ⟨⟨1, 2, 3⟩, ⟨4, 5, 6⟩, 50⟩⟩) := by
  rfl

/-- C1 (amended).  For every successful `loadSceneData` call, the
returned `cameraRestored` flag equals the presence (truthiness) of the
document's `camera` field, independent of the field's validity; the
camera state itself is left untouched whenever every sub-field —
position, target, fov — fails its own validity check (sub-fields are
restored independently, each only when individually valid). -/
theorem cameraRestored_iff_block_present (gen : String) (now : ℚ) (data : Jso)
    (st : EditorState) (res : LoadResult) (st' : EditorState)
    (hok : loadSceneData gen now data st = .ok (res, st')) :
    res.cameraRestored = jsTruthy (data.getField "camera") ∧
    (isValidNumberArrayJ ((data.getField "camera").getField "position") 3 = false →
      isValidNumberArrayJ ((data.getField "camera").getField "target") 3 = false →
      fovValid ((data.getField "camera").getField "fov") = false →
      st'.cam = st.cam) := by
  unfold loadSceneData at hok
  cases data with
  | arr xs =>
    dsimp only [rootDispatch] at hok
    cases hli : loadItems gen now xs ⟨[], 0, 0⟩ with
    | error e =>
      rw [hli] at hok
      exact Except.noConfusion hok
    | ok acc =>
      rw [hli] at hok
      dsimp only at hok
      rw [Except.ok.injEq, Prod.mk.injEq] at hok
      obtain ⟨hres, hst⟩ := hok
      constructor
      · rw [← hres]
        rfl
      · intro _ _ _
        rw [← hst]
        rfl
  | obj fields =>
    rw [show rootDispatch (Jso.obj fields) =
        (match (Jso.obj fields).getField "objects" with
         | .arr xs => some (xs,
            if jsTruthy ((Jso.obj fields).getField "camera")
            then (Jso.obj fields).getField "camera" else Jso.null)
         | _ => none) from rfl] at hok
    cases hobjs : (Jso.obj fields).getField "objects" with
    | arr xs =>
      rw [hobjs] at hok
      dsimp only at hok
      cases hli : loadItems gen now xs ⟨[], 0, 0⟩ with
      | error e =>
        rw [hli] at hok
        exact Except.noConfusion hok
      | ok acc =>
        rw [hli] at hok
        dsimp only at hok
        rw [Except.ok.injEq, Prod.mk.injEq] at hok
        obtain ⟨hres, hst⟩ := hok
        cases hcam : jsTruthy ((Jso.obj fields).getField "camera") with
        | false =>
          constructor
          · rw [← hres]
            simp only [hcam]
            rfl
          · intro _ _ _
            rw [← hst]
            simp only [hcam]
            rfl
        | true =>
          constructor
          · rw [← hres]
            simp [hcam]
          · intro hp ht hf
            rw [← hst]
            simp only [hcam, if_true]
            exact restoreCamera_invalid hp ht hf
    | undefined => rw [hobjs] at hok; exact Except.noConfusion hok
    | null => rw [hobjs] at hok; exact Except.noConfusion hok
    | boolean b => rw [hobjs] at hok; exact Except.noConfusion hok
    | num q => rw [hobjs] at hok; exact Except.noConfusion hok
    | nan => rw [hobjs] at hok; exact Except.noConfusion hok
    | infinite neg => rw [hobjs] at hok; exact Except.noConfusion hok
    | str s => rw [hobjs] at hok; exact Except.noConfusion hok
    | obj fields2 => rw [hobjs] at hok; exact Except.noConfusion hok
  | undefined => exact Except.noConfusion hok
  | null => exact Except.noConfusion hok
  | boolean b => exact Except.noConfusion hok
  | num q => exact Except.noConfusion hok
  | nan => exact Except.noConfusion hok
  | infinite neg => exact Except.noConfusion hok
  | str s => exact Except.noConfusion hok

/-- Witness for C1 (amended) at the counterexample document: the flag
is true because the block is present, and the camera is untouched
because every sub-field is invalid. -/
theorem cameraRestored_iff_block_present_witness :
    (LoadResult.mk 0 0 true).cameraRestored
      = jsTruthy ((Jso.obj [("objects", Jso.arr []),
          ("camera", Jso.obj [("position", Jso.arr [Jso.num 1, Jso.num 2]),
            ("target", Jso.num 3), ("fov", Jso.num 500)])]).getField "camera") ∧
    (EditorState.mk [] none ⟨⟨1, 2, 3⟩, ⟨4, 5, 6⟩, 50⟩).cam
      = (EditorState.mk [] (some 0) ⟨⟨1, 2, 3⟩, ⟨4, 5, 6⟩, 50⟩).cam :=
  ⟨(cameraRestored_iff_block_present "gen0000" 0
      (Jso.obj [("objects", Jso.arr []),
        ("camera", Jso.obj [("position", Jso.arr [Jso.num 1, Jso.num 2]),
          ("target", Jso.num 3), ("fov", Jso.num 500)])])
      ⟨[], some 0, ⟨⟨1, 2, 3⟩, ⟨4, 5, 6⟩, 50⟩⟩ ⟨0, 0, true⟩
      ⟨[], none, ⟨⟨1, 2, 3⟩, ⟨4, 5, 6⟩, 50⟩⟩ (by rfl)).1,
   (cameraRestored_iff_block_present "gen0000" 0
      (Jso.obj [("objects", Jso.arr []),
        ("camera", Jso.obj [("position", Jso.arr [Jso.num 1, Jso.num 2]),
          ("target", Jso.num 3), ("fov", Jso.num 500)])])
      ⟨[], some 0, ⟨⟨1, 2, 3⟩, ⟨4, 5, 6⟩, 50⟩⟩ ⟨0, 0, true⟩
      ⟨[], none, ⟨⟨1, 2, 3⟩, ⟨4, 5, 6⟩, 50⟩⟩ (by rfl)).2 (by rfl) (by rfl) (by rfl)⟩

/-- A record passing `validateItem` has a string `type` naming one of
the three known kinds, so `buildGeometry` succeeds on it. -/
lemma validateItem_type {item : Jso} (h : validateItem item = true) :
    ∃ t, item.getField "type" = Jso.str t ∧ ∃ g, buildGeometry t = some g := by
  unfold validateItem at h
  simp only [Bool.and_eq_true] at h
  obtain ⟨⟨⟨⟨_, htype⟩, _⟩, _⟩, _⟩ := h
  cases hty : item.getField "type" with
  | str t =>
    rw [hty] at htype
    refine ⟨t, rfl, ?_⟩
    have hmem : t = "box" ∨ t = "sphere" ∨ t = "cylinder" := by
      unfold OBJECT_TYPES at htype
      simp at htype
      tauto
    unfold buildGeometry
    rcases hmem with h | h | h <;> subst h <;> exact ⟨_, rfl⟩
  | undefined => rw [hty] at htype; simp at htype
  | null => rw [hty] at htype; simp at htype
  | boolean b => rw [hty] at htype; simp at htype
  | num q => rw [hty] at htype; simp at htype
  | nan => rw [hty] at htype; simp at htype
  | infinite neg => rw [hty] at htype; simp at htype
  | arr elems => rw [hty] at htype; simp at htype
  | obj fields => rw [hty] at htype; simp at htype

/-- Under the no-crash condition, the name construction succeeds. -/
lemma mkName_ok {item : Jso} (gen : String) (t : String) (hsafe : itemSafe item = true) :
    ∃ nm, mkName t (if jsTruthy (item.getField "id") then item.getField "id" else Jso.str gen)
      (item.getField "name") = Except.ok nm := by
  unfold mkName
  cases hname : jsTruthy (item.getField "name") with
  | true => exact ⟨item.getField "name", rfl⟩
  | false =>
    unfold itemSafe at hsafe
    rw [hname] at hsafe
    simp only [Bool.false_or] at hsafe
    cases hid : jsTruthy (item.getField "id") with
    | false =>
      exact ⟨_, rfl⟩
    | true =>
      rw [hid] at hsafe
      simp only [Bool.not_true, Bool.false_or] at hsafe
      cases hidv : item.getField "id" with
      | str s => exact ⟨_, rfl⟩
      | undefined => rw [hidv] at hsafe; simp at hsafe
      | null => rw [hidv] at hsafe; simp at hsafe
      | boolean b => rw [hidv] at hsafe; simp at hsafe
      | num q => rw [hidv] at hsafe; simp at hsafe
      | nan => rw [hidv] at hsafe; simp at hsafe
      | infinite neg => rw [hidv] at hsafe; simp at hsafe
      | arr elems => rw [hidv] at hsafe; simp at hsafe
      | obj fields => rw [hidv] at hsafe; simp at hsafe

/-- A record failing validation is skipped and counted, nothing else
changes. -/
lemma loadStep_invalid {gen : String} {now : ℚ} {acc : LoadAcc} {item : Jso}
    (h : validateItem item = false) :
    loadStep gen now acc item = .ok { acc with skippedCount := acc.skippedCount + 1 } := by
  unfold loadStep
  rw [if_neg (by simp [h])]

/-- A record passing validation, under the no-crash condition, is
reconstructed, appended to the registry and counted as loaded. -/
lemma loadStep_valid {gen : String} {now : ℚ} {acc : LoadAcc} {item : Jso}
    (hval : validateItem item = true) (hsafe : itemSafe item = true) :
    ∃ mesh, loadStep gen now acc item
      = .ok { registry := acc.registry ++ [mesh],
              loadedCount := acc.loadedCount + 1,
              skippedCount := acc.skippedCount } := by
  obtain ⟨t, hty, g, hgeo⟩ := validateItem_type hval
  obtain ⟨nm, hnm⟩ := mkName_ok gen t hsafe
  unfold loadStep
  rw [if_pos hval, hty]
  dsimp only
  rw [hgeo]
  dsimp only
  rw [hnm]
  exact ⟨_, rfl⟩

/-- The `forEach` walk over safe items never throws; it loads exactly
the records passing `validateItem` and skips exactly the others. -/
lemma loadItems_safe (gen : String) (now : ℚ) :
    ∀ (xs : List Jso) (acc : LoadAcc),
      (∀ item ∈ xs, validateItem item = true → itemSafe item = true) →
      ∃ acc', loadItems gen now xs acc = .ok acc' ∧
        acc'.loadedCount = acc.loadedCount + xs.countP (fun i => validateItem i) ∧
        acc'.skippedCount = acc.skippedCount + xs.countP (fun i => !validateItem i) := by
  intro xs
  induction xs with
  | nil =>
    intro acc _
    exact ⟨acc, rfl, by simp, by simp⟩
  | cons item rest ih =>
    intro acc hsafe
    have hrest : ∀ i ∈ rest, validateItem i = true → itemSafe i = true :=
      fun i hi => hsafe i (List.mem_cons_of_mem _ hi)
    cases hval : validateItem item with
    | false =>
      obtain ⟨acc', hrun, hl, hs⟩ := ih { acc with skippedCount := acc.skippedCount + 1 } hrest
      refine ⟨acc', ?_, ?_, ?_⟩
      · show (match loadStep gen now acc item with
              | Except.error e => Except.error e
              | Except.ok a => loadItems gen now rest a) = Except.ok acc'
        rw [loadStep_invalid hval]
        exact hrun
      · rw [hl, List.countP_cons]
        simp [hval]
      · rw [hs, List.countP_cons]
        simp [hval]
        omega
    | true =>
      have hsafe0 := hsafe item (List.mem_cons_self item rest) hval
      obtain ⟨mesh, hstep⟩ := @loadStep_valid gen now acc item hval hsafe0
      obtain ⟨acc', hrun, hl, hs⟩ :=
        ih ⟨acc.registry ++ [mesh], acc.loadedCount + 1, acc.skippedCount⟩ hrest
      refine ⟨acc', ?_, ?_, ?_⟩
      · show (match loadStep gen now acc item with
              | Except.error e => Except.error e
              | Except.ok a => loadItems gen now rest a) = Except.ok acc'
        rw [hstep]
        exact hrun
      · rw [hl, List.countP_cons]
        simp [hval]
        omega
      · rw [hs, List.countP_cons]
        simp [hval]

/-- C6 counterexample: this record passes `validateItem` — so the
claim calls it valid and requires it to be loaded — but its `id` is
the number 5 and it has no `name`, so the name template throws a
`TypeError` (`objectId.substring` on a number): the load aborts with
the record neither loaded nor counted as skipped, and no counts are
returned at all. -/
theorem load_crashes_on_numeric_id :
    validateItem (Jso.obj [("type", Jso.str "box"),
      ("position", Jso.arr [Jso.num 0, Jso.num 0, Jso.num 0]),
      ("rotation", Jso.arr [Jso.num 0, Jso.num 0, Jso.num 0]),
      ("scale", Jso.arr [Jso.num 1, Jso.num 1, Jso.num 1]),
      ("id", Jso.num 5)]) = true ∧
    loadSceneData "gen0000" 0
      (Jso.arr [Jso.obj [("type", Jso.str "box"),
        ("position", Jso.arr [Jso.num 0, Jso.num 0, Jso.num 0]),
        ("rotation", Jso.arr [Jso.num 0, Jso.num 0, Jso.num 0]),
        ("scale", Jso.arr [Jso.num 1, Jso.num 1, Jso.num 1]),
        ("id", Jso.num 5)]])
      ⟨[], none, ⟨⟨0, 0, 0⟩, ⟨0, 0, 0⟩, 50⟩⟩
      = .error ("TypeError: objectId.substring is not a function",
          ⟨[], none, ⟨⟨0, 0, 0⟩, ⟨0, 0, 0⟩, 50⟩⟩) :=
  ⟨rfl, rfl⟩

/-- C6 (amended).  For every document with a valid root whose records
are free of the `id`/`name` crash (each record's `id`, when truthy, is
a string, or its `name` is truthy), the load returns normally with
`loadedCount` the number of records passing validation and
`skippedCount` the number failing it — each invalid record (unknown
type, position or scale not a length-3 finite number array, rotation
without three finite leading components) is skipped without aborting
the load, and all valid records are loaded. -/
theorem load_skips_invalid_records (gen : String) (now : ℚ) (data : Jso) (st : EditorState)
    (xs : List Jso) (camData : Jso)
    (hroot : rootDispatch data = some (xs, camData))
    (hsafe : ∀ item ∈ xs, validateItem item = true → itemSafe item = true) :
    loadCounts (loadSceneData gen now data st)
      = some (xs.countP (fun i => validateItem i), xs.countP (fun i => !validateItem i)) := by
  obtain ⟨acc', hrun, hl, hs⟩ := loadItems_safe gen now xs ⟨[], 0, 0⟩ hsafe
  unfold loadSceneData
  rw [hroot]
  dsimp only
  rw [hrun]
  dsimp only [loadCounts]
  rw [hl, hs]
  simp

/-- Witness for C6 at the claim's own instance: one valid box record
plus one record whose position is `[1, 2]` (wrong length) yield
`loadedCount = 1, skippedCount = 1`. -/
theorem load_skips_invalid_records_witness :
    loadCounts (loadSceneData "gen0000" 0
      (Jso.arr [Jso.obj [("type", Jso.str "box"),
        ("position", Jso.arr [Jso.num 0, Jso.num 0, Jso.num 0]),
        ("rotation", Jso.arr [Jso.num 0, Jso.num 0, Jso.num 0]),
        ("scale", Jso.arr [Jso.num 1, Jso.num 1, Jso.num 1])],
       Jso.obj [("type", Jso.str "box"),
        ("position", Jso.arr [Jso.num 1, Jso.num 2]),
        ("rotation", Jso.arr [Jso.num 0, Jso.num 0, Jso.num 0]),
        ("scale", Jso.arr [Jso.num 1, Jso.num 1, Jso.num 1])]])
      ⟨[], none, ⟨⟨0, 0, 0⟩, ⟨0, 0, 0⟩, 50⟩⟩)
      = some (1, 1) :=
  (load_skips_invalid_records "gen0000" 0
      (Jso.arr [Jso.obj [("type", Jso.str "box"),
        ("position", Jso.arr [Jso.num 0, Jso.num 0, Jso.num 0]),
        ("rotation", Jso.arr [Jso.num 0, Jso.num 0, Jso.num 0]),
        ("scale", Jso.arr [Jso.num 1, Jso.num 1, Jso.num 1])],
       Jso.obj [("type", Jso.str "box"),
        ("position", Jso.arr [Jso.num 1, Jso.num 2]),
        ("rotation", Jso.arr [Jso.num 0, Jso.num 0, Jso.num 0]),
        ("scale", Jso.arr [Jso.num 1, Jso.num 1, Jso.num 1])]])
      ⟨[], none, ⟨⟨0, 0, 0⟩, ⟨0, 0, 0⟩, 50⟩⟩
      [Jso.obj [("type", Jso.str "box"),
        ("position", Jso.arr [Jso.num 0, Jso.num 0, Jso.num 0]),
        ("rotation", Jso.arr [Jso.num 0, Jso.num 0, Jso.num 0]),
        ("scale", Jso.arr [Jso.num 1, Jso.num 1, Jso.num 1])],
       Jso.obj [("type", Jso.str "box"),
        ("position", Jso.arr [Jso.num 1, Jso.num 2]),
        ("rotation", Jso.arr [Jso.num 0, Jso.num 0, Jso.num 0]),
        ("scale", Jso.arr [Jso.num 1, Jso.num 1, Jso.num 1])]]
      Jso.null rfl (by intro item hi hv
                       fin_cases hi <;> rfl)).trans (by rfl)

end Editor3D
